import Mathlib

/-!
Shallow embedding of the flight-booking backend (src/main.py, src/schemas.py).

Modelling conventions:
* MongoDB documents become Lean structures; the `flight` collection is an
  association list `List (Nat × Flight)` (ObjectId modelled as `Nat`, `_id`s
  assumed unique as Mongo guarantees), the `booking` collection a
  `List Booking` (a created booking is appended, as `insert_one` does).
* Python `float` is modelled as the exact rational `Rat`; `datetime` as `Int`
  microseconds since the epoch (Python datetimes are microsecond-granular,
  `timedelta(days=1)` is `dayUs`, `replace(hour=0, ...)` floors to a
  multiple of `dayUs`, which is what it does on a UTC datetime).
* Each store round trip of the handler (`find_one`, `insert_one`,
  `update_one`) is one atomic event; the concurrency model interleaves
  those events of several in-flight requests, exactly the granularity the
  document store guarantees.
* `create_booking` additionally returns the list of store operations it
  issued, so that temporal claims about the order of writes can be stated.
-/

namespace FlightBooking

/-- Passenger record (schemas.py, `class Passenger`). -/
structure Passenger where
  first_name : String
  last_name : String
  email : String
  document_number : Option String
deriving DecidableEq, Repr

/-- Flight record (schemas.py, `class Flight`). -/
structure Flight where
  flight_number : String
  origin : String
  destination : String
  departure_time : Int
  arrival_time : Int
  price : Rat
  seats_total : Int
  seats_available : Int
deriving DecidableEq, Repr

/-- Booking record (schemas.py, `class Booking`); `flight_id` is the id of
the referenced flight. -/
structure Booking where
  flight_id : Nat
  contact_email : String
  passengers : List Passenger
  total_amount : Rat
  status : String
deriving DecidableEq, Repr

/-- Request-body passenger (main.py, `class PassengerIn`). -/
structure PassengerIn where
  first_name : String
  last_name : String
  email : String
  document_number : Option String
deriving DecidableEq, Repr

/-- Request body of `POST /api/bookings` (main.py, `class BookingRequest`),
after the `ObjectId(req.flight_id)` parse succeeded.  Note that pydantic's
`List[PassengerIn]` carries no minimum-length constraint. -/
structure BookingRequest where
  flight_id : Nat
  contact_email : String
  passengers : List PassengerIn
deriving DecidableEq, Repr

/-- The two Mongo collections the booking endpoints touch. -/
structure DB where
  flights : List (Nat × Flight)
  bookings : List Booking
deriving DecidableEq, Repr

/-- Mongo `db["flight"].find_one({"_id": fid})`: first (in Mongo: unique) document
with the given id. -/
def lookupFlight : List (Nat × Flight) → Nat → Option Flight
  | [], _ => none
  | (i, f) :: rest, fid => if i == fid then some f else lookupFlight rest fid

def DB.findFlight (db : DB) (fid : Nat) : Option Flight :=
  lookupFlight db.flights fid

/-- Mongo `db["flight"].update_one({"_id": fid}, {"$inc": {"seats_available": delta}})`:
unconditionally add `delta` to the first (unique) matching document's counter. -/
def incSeats : List (Nat × Flight) → Nat → Int → List (Nat × Flight)
  | [], _, _ => []
  | (i, f) :: rest, fid, delta =>
    if i == fid then
      (i, { f with seats_available := f.seats_available + delta }) :: rest
    else
      (i, f) :: incSeats rest fid delta

/-- Outcome of the `POST /api/bookings` handler: `ok` is the 200 response
`BookingResponse(booking_id, status)`, `notFound` the 404 `"Flight not
found"`, `insufficientCapacity` the 400 `"Not enough seats available"`. -/
inductive BookingOutcome
  | ok (booking_id : Nat) (status : String)
  | notFound
  | insufficientCapacity
deriving DecidableEq, Repr

/-- One atomic round trip from the handler to the document store.
`decSeatsIfAtLeast` is the conditional atomic decrement the specification
mandates; it is listed so that its absence from the handler's trace can be
stated. -/
inductive StoreOp
  | findOneFlight (fid : Nat)
  | insertBooking (b : Booking)
  | incSeatsOp (fid : Nat) (delta : Int)
  | decSeatsIfAtLeast (fid : Nat) (n : Nat)
deriving DecidableEq, Repr

def StoreOp.isWrite : StoreOp → Bool
  | .findOneFlight _ => false
  | _ => true

def StoreOp.isInsert : StoreOp → Bool
  | .insertBooking _ => true
  | _ => false

def StoreOp.isSeatWrite : StoreOp → Bool
  | .incSeatsOp _ _ => true
  | .decSeatsIfAtLeast _ _ => true
  | _ => false

/-- Stored passenger `Passenger(**p)` built from a request passenger (main.py lines 186-194). -/
def passengerOfIn (p : PassengerIn) : Passenger :=
  { first_name := p.first_name
    last_name := p.last_name
    email := p.email
    document_number := p.document_number }

/-- The `POST /api/bookings` handler (main.py, `create_booking`, lines
179-208), as a sequential state transformer.  Returns the HTTP outcome, the
store state after the call, and the trace of store operations issued:
`find_one`; on the success path `insert_one` of the booking **then** the
unconditional `$inc` of `seats_available` by `-len(passengers)`.  The fresh
booking id is modelled as the number of previously stored bookings. -/
def create_booking (db : DB) (req : BookingRequest) :
    BookingOutcome × DB × List StoreOp :=
  match db.findFlight req.flight_id with
  | none => (.notFound, db, [.findOneFlight req.flight_id])
  | some flight =>
    if flight.seats_available < (req.passengers.length : Int) then
      (.insufficientCapacity, db, [.findOneFlight req.flight_id])
    else
      let passengers := req.passengers.map passengerOfIn
      let total_amount : Rat := flight.price * (passengers.length : Rat)
      let booking : Booking :=
        { flight_id := req.flight_id
          contact_email := req.contact_email
          passengers := passengers
          total_amount := total_amount
          status := "confirmed" }
      let bid := db.bookings.length
      let db1 : DB := { db with bookings := db.bookings ++ [booking] }
      let db2 : DB :=
        { db1 with
          flights := incSeats db1.flights req.flight_id (-(req.passengers.length : Int)) }
      (.ok bid "confirmed", db2,
        [.findOneFlight req.flight_id, .insertBooking booking,
         .incSeatsOp req.flight_id (-(req.passengers.length : Int))])

/-- Program counter of one in-flight `create_booking` request, between its
atomic store round trips: not started; `find_one` answered; booking document
inserted (its id recorded); finished with an HTTP outcome. -/
inductive ThreadPC
  | ready
  | readDone (found : Option Flight)
  | inserted (bid : Nat)
  | finished (out : BookingOutcome)
deriving DecidableEq, Repr

structure Thread where
  req : BookingRequest
  pc : ThreadPC
deriving DecidableEq, Repr

/-- State of the whole system: the store plus every in-flight request. -/
structure Sys where
  db : DB
  threads : List Thread
deriving DecidableEq, Repr

/-- One atomic step of a single request, faithful to the handler: the
in-process capacity check and the booking construction use the flight
snapshot obtained by its own `find_one`, and the final `$inc` is
unconditional. -/
def stepThread (db : DB) (t : Thread) : DB × Thread :=
  match t.pc with
  | .ready => (db, { t with pc := .readDone (db.findFlight t.req.flight_id) })
  | .readDone none => (db, { t with pc := .finished .notFound })
  | .readDone (some flight) =>
    if flight.seats_available < (t.req.passengers.length : Int) then
      (db, { t with pc := .finished .insufficientCapacity })
    else
      let passengers := t.req.passengers.map passengerOfIn
      let booking : Booking :=
        { flight_id := t.req.flight_id
          contact_email := t.req.contact_email
          passengers := passengers
          total_amount := flight.price * (passengers.length : Rat)
          status := "confirmed" }
      ({ db with bookings := db.bookings ++ [booking] },
       { t with pc := .inserted db.bookings.length })
  | .inserted bid =>
    ({ db with
       flights := incSeats db.flights t.req.flight_id (-(t.req.passengers.length : Int)) },
     { t with pc := .finished (.ok bid "confirmed") })
  | .finished _ => (db, t)

/-- Run the system under an explicit schedule: each entry names the thread
that performs its next atomic step (indices out of range are skipped). -/
def runSched : List Nat → Sys → Sys
  | [], s => s
  | i :: rest, s =>
    match s.threads.get? i with
    | none => runSched rest s
    | some t =>
      let p := stepThread s.db t
      runSched rest { db := p.1, threads := s.threads.set i p.2 }

/-- Microseconds per hour, minute, day (Python datetimes are
microsecond-granular). -/
def hourUs : Int := 3600000000

def minuteUs : Int := 60000000

def dayUs : Int := 86400000000

/-- Constant `AIRLINES` (main.py line 66). -/
def AIRLINES : List String := ["IR", "W5", "QB", "EP"]

/-- Seed `routes` of `ensure_seed` (main.py line 79). -/
def routes : List (String × String) :=
  [("IKA", "MHD"), ("IKA", "SYZ"), ("THR", "MHD"), ("IFN", "IKA")]

/-- Seed `price_base` dict of `ensure_seed` (main.py line 80), as a function on
the four keys the loop uses. -/
def price_base (o dst : String) : Rat :=
  if o == "IKA" && dst == "MHD" then 70
  else if o == "IKA" && dst == "SYZ" then 65
  else if o == "THR" && dst == "MHD" then 60
  else 55

/-- The flight-seeding loop of `ensure_seed` (main.py lines 76-100).  `base`
is `utcnow().replace(hour=6, minute=0, second=0, microsecond=0)`, left as a
parameter.  The inner state is the `flights` list being built, whose length
enters the airline index and flight number exactly as in the source. -/
def seedFlights (base : Int) : List Flight :=
  (List.range 5).foldl
    (fun flights (d : Nat) =>
      routes.foldl
        (fun flights r =>
          let o := r.1
          let dst := r.2
          let dep := base + (d : Int) * dayUs + ((d % 3 : Nat) : Int) * 3 * hourUs
          let arr := dep + hourUs + 10 * minuteUs
          let airline :=
            ((AIRLINES.get? ((d + flights.length) % AIRLINES.length)).getD "")
          let fn := airline ++ "-" ++ toString (100 + d * 5 + flights.length % 5)
          let price : Rat := price_base o dst + (d : Rat) * 5
          flights ++
            [{ flight_number := fn
               origin := o
               destination := dst
               departure_time := dep
               arrival_time := arr
               price := price
               seats_total := 120
               seats_available := 120 - (d : Int) * 3 }])
        flights)
    []

/-- The store right after `ensure_seed` ran on an empty database: the seeded
flights (ids assigned by insertion order) and no bookings. -/
def seedDB (base : Int) : DB :=
  { flights := (seedFlights base).enum, bookings := [] }

/-- Python `q.date.replace(hour=0, minute=0, second=0, microsecond=0)` on a UTC
datetime: floor to the start of the calendar day. -/
def startOfDayUTC (t : Int) : Int := dayUs * (t.fdiv dayUs)

/-- Body of `POST /api/flights/search` (main.py, `class SearchQuery`). -/
structure SearchQuery where
  origin : String
  destination : String
  date : Int
deriving DecidableEq, Repr

/-- Python's `str.upper()` on the ASCII range (uppercase each character);
airport codes in this system are ASCII. -/
def pyUpper (s : String) : String := ⟨s.data.map Char.toUpper⟩

/-- The filter document of the `db["flight"].find` call in `search_flights`
(main.py lines 150-155): origin and destination equal the uppercased query
codes, departure inside the queried calendar day, seats available. -/
def flightMatches (q : SearchQuery) (f : Flight) : Bool :=
  f.origin == pyUpper q.origin &&
  f.destination == pyUpper q.destination &&
  decide (startOfDayUTC q.date ≤ f.departure_time) &&
  decide (f.departure_time < startOfDayUTC q.date + dayUs) &&
  decide (0 < f.seats_available)

/-- The `POST /api/flights/search` handler (main.py, `search_flights`,
lines 145-156): the matching flight documents, sorted ascending by
`departure_time` (Mongo's sort, modelled as a stable merge sort). -/
def search_flights (db : DB) (q : SearchQuery) : List Flight :=
  ((db.flights.map Prod.snd).filter (flightMatches q)).mergeSort
    (fun a b => decide (a.departure_time ≤ b.departure_time))

/-- Seats consumed by the non-cancelled bookings that reference flight
`fid`: the quantity of the seat-conservation property. -/
def bookedSeats (bs : List Booking) (fid : Nat) : Nat :=
  ((bs.filter (fun b => b.flight_id == fid && !(b.status == "cancelled"))).map
    (fun b => b.passengers.length)).sum

/-- Boolean check of the spec's seat-conservation invariant on a store
state: every flight's `seats_available` plus its booked seats equals its
`seats_total`. -/
def conservesB (db : DB) : Bool :=
  db.flights.all
    (fun p => p.2.seats_available + (bookedSeats db.bookings p.1 : Int) == p.2.seats_total)

/-- Counter `seats_available` plus booked seats for the flight `find_one` would
return, the quantity shown below to be invariant under `create_booking`. -/
def seatLedger (db : DB) (fid : Nat) : Option Int :=
  (db.findFlight fid).map
    (fun f => f.seats_available + (bookedSeats db.bookings fid : Int))

/-- A sequence of `create_booking` calls executed back to back. -/
def applyReqs (db : DB) (reqs : List BookingRequest) : DB :=
  reqs.foldl (fun d r => (create_booking d r).2.1) db

/-- Whether, in a trace of store operations, a write to `seats_available`
precedes the booking insert (vacuously true when either is absent). -/
def seatWriteBeforeInsert (tr : List StoreOp) : Bool :=
  match tr.findIdx? StoreOp.isSeatWrite, tr.findIdx? StoreOp.isInsert with
  | some i, some j => decide (i < j)
  | _, _ => true

def StoreOp.isCondSeatWrite : StoreOp → Bool
  | .decSeatsIfAtLeast _ _ => true
  | _ => false

/-! Concrete instances used by the scenario theorems. -/

/-- A flight with two remaining seats, the flight of the spec's concurrency
scenario. -/
def raceFlight : Flight :=
  { flight_number := "IR-100", origin := "IKA", destination := "MHD",
    departure_time := 0, arrival_time := 4200000000, price := 70,
    seats_total := 2, seats_available := 2 }

def pAnn : PassengerIn :=
  { first_name := "Ann", last_name := "Ahls", email := "ann@example.com",
    document_number := none }

def pBob : PassengerIn :=
  { first_name := "Bob", last_name := "Beck", email := "bob@example.com",
    document_number := none }

/-- A two-passenger booking request for flight 1. -/
def raceReq : BookingRequest :=
  { flight_id := 1, contact_email := "contact@example.com",
    passengers := [pAnn, pBob] }

/-- Two concurrent copies of the two-passenger request against the
two-seat flight. -/
def sysRace : Sys :=
  { db := { flights := [(1, raceFlight)], bookings := [] },
    threads := [{ req := raceReq, pc := .ready }, { req := raceReq, pc := .ready }] }

/-- The interleaving in which both requests pass their `find_one` before
either writes: thread 0 reads, thread 1 reads, thread 0 inserts and
decrements, thread 1 inserts and decrements. -/
def raceSched : List Nat := [0, 1, 0, 0, 1, 1]

/-- The same flight with five remaining seats, for the sequential-path
theorems. -/
def dbEx : DB :=
  { flights := [(1, { raceFlight with seats_available := 5 })], bookings := [] }

/-- A request whose `passengers` list is empty (pydantic accepts it:
`List[PassengerIn]` has no minimum length). -/
def reqEmpty : BookingRequest :=
  { flight_id := 1, contact_email := "contact@example.com", passengers := [] }

/-- The same flight with a single remaining seat. -/
def dbOne : DB :=
  { flights := [(1, { raceFlight with seats_available := 1 })], bookings := [] }

def pCarol : PassengerIn :=
  { first_name := "Carol", last_name := "Cruz", email := "carol@example.com",
    document_number := none }

/-- A three-passenger booking request for flight 1 (the spec's
price-snapshot scenario: price 70, three passengers). -/
def reqThree : BookingRequest :=
  { flight_id := 1, contact_email := "contact@example.com",
    passengers := [pAnn, pBob, pCarol] }

def ThreadPC.isFinished : ThreadPC → Bool
  | .finished _ => true
  | _ => false

/-- Seats a request has already claimed in the booking collection but not
yet removed from the flight counter: nonzero exactly while the thread is
parked between its booking insert and its `$inc` decrement. -/
def Thread.pendingFor (t : Thread) (fid : Nat) : Int :=
  match t.pc with
  | .inserted _ =>
    if t.req.flight_id == fid then (t.req.passengers.length : Int) else 0
  | _ => 0

/-- Total pending (inserted but not yet decremented) seats of all in-flight
requests against flight `fid`. -/
def pendingSeats (ts : List Thread) (fid : Nat) : Int :=
  (ts.map (fun t => t.pendingFor fid)).sum

/-- Seat ledger of a flight corrected by the pending seats of in-flight
requests; this is the quantity that every single interleaving step
preserves. -/
def adjustedLedger (s : Sys) (fid : Nat) : Option Int :=
  (seatLedger s.db fid).map (fun v => v - pendingSeats s.threads fid)

/-- System in which one thread per request is about to start against the
given store. -/
def startSys (db : DB) (reqs : List BookingRequest) : Sys :=
  { db := db, threads := reqs.map (fun r => { req := r, pc := .ready }) }

/-! Helper lemmas about the store primitives. -/

theorem lookupFlight_incSeats_self (fl : List (Nat × Flight)) (fid : Nat) (d : Int) :
    lookupFlight (incSeats fl fid d) fid =
      (lookupFlight fl fid).map
        (fun f => { f with seats_available := f.seats_available + d }) := by
  induction fl with
  | nil => rfl
  | cons hd tl ih =>
    obtain ⟨i, f⟩ := hd
    cases h : (i == fid) <;> simp [incSeats, lookupFlight, h, ih]

theorem lookupFlight_incSeats_ne (fl : List (Nat × Flight)) (fid fid' : Nat) (d : Int)
    (hne : fid ≠ fid') :
    lookupFlight (incSeats fl fid' d) fid = lookupFlight fl fid := by
  induction fl with
  | nil => rfl
  | cons hd tl ih =>
    obtain ⟨i, f⟩ := hd
    cases h : (i == fid') with
    | true =>
      have hi : i = fid' := by simpa using h
      have : (i == fid) = false := by simp [hi]; omega
      simp [incSeats, lookupFlight, h, this]
    | false =>
      simp [incSeats, lookupFlight, h, ih]

theorem bookedSeats_append (bs : List Booking) (b : Booking) (fid : Nat) :
    bookedSeats (bs ++ [b]) fid =
      bookedSeats bs fid +
        (if b.flight_id == fid && !(b.status == "cancelled") then
          b.passengers.length else 0) := by
  unfold bookedSeats
  rw [List.filter_append]
  cases h : (b.flight_id == fid && !(b.status == "cancelled")) <;>
    simp [List.filter, h]

/-! Theorems about the claims. -/

/-- Claim C1 (code bug): under the interleaving `raceSched`, the flight with
`seats_available = 2` accepts **both** concurrent 2-passenger requests: both
threads finish with a confirmed `ok` outcome, two 2-passenger bookings are
created (4 seats consumed from a capacity of 2), and `seats_available`
settles at `-2`, not `0` — the code's read-check-then-unconditional-`$inc`
races, contradicting the claim that at most `K` seats are consumed and that
exactly one of the two requests succeeds. -/
theorem race_oversell :
    (runSched raceSched sysRace).threads.map Thread.pc =
      [.finished (.ok 0 "confirmed"), .finished (.ok 1 "confirmed")] ∧
    (runSched raceSched sysRace).db.bookings.map (fun b => b.passengers.length) = [2, 2] ∧
    ((runSched raceSched sysRace).db.findFlight 1).map Flight.seats_available = some (-2) := by
  decide

/-- Claim C2 (code bug): the operation trace of a successful
`create_booking` call is a separate `find_one` read followed by an
`insert_one` and an **unconditional** `$inc` write on `seats_available`;
no conditional atomic decrement (`decSeatsIfAtLeast`) appears anywhere in
the trace, so the seat check-and-decrement is exactly the
read-then-unconditional-write the claim rules out. -/
theorem create_booking_read_then_unconditional_write :
    (create_booking dbEx raceReq).2.2 =
      [.findOneFlight 1,
       .insertBooking
         { flight_id := 1, contact_email := "contact@example.com",
           passengers := [passengerOfIn pAnn, passengerOfIn pBob],
           total_amount := 140, status := "confirmed" },
       .incSeatsOp 1 (-2)] ∧
    ((create_booking dbEx raceReq).2.2.all (fun op => !op.isCondSeatWrite)) = true := by
  constructor
  · simp [create_booking, dbEx, raceFlight, raceReq, DB.findFlight, lookupFlight,
      pAnn, pBob, passengerOfIn]
    norm_num
  · rfl

/-- Claim C5 (code bug): the race interleaving drives `seats_available`
of the stored flight to `-2`, strictly below the lower bound `0` that the
claim (and `schemas.py`'s `seats_available ≥ 0` field constraint) asserts
for every reachable state. -/
theorem race_negative_seats :
    (runSched raceSched sysRace).db.findFlight 1 =
      some { raceFlight with seats_available := -2 } ∧
    ({ raceFlight with seats_available := -2 } : Flight).seats_available < 0 := by
  decide

/-- Claim C3 counterexample: in the trace of a successful `create_booking`
call the seat decrement does **not** precede the booking insert — the code
inserts the booking first and decrements `seats_available` afterwards, so
the decrement is not the gate the claim describes. -/
theorem seat_dec_does_not_precede_insert :
    seatWriteBeforeInsert (create_booking dbEx raceReq).2.2 = false := by
  decide

/-- Claim C4 counterexample: immediately after seeding, the flight stored
at id 4 (day 1, first route) has `seats_total = 120` and
`seats_available = 117` with no bookings at all, so
`seats_available + booked seats = 117 ≠ 120 = seats_total` and the
conservation check over the seeded store is false. -/
theorem seed_breaks_conservation :
    conservesB (seedDB 0) = false ∧
    ((seedDB 0).findFlight 4).map (fun f => (f.seats_total, f.seats_available)) =
      some (120, 117) ∧
    bookedSeats (seedDB 0).bookings 4 = 0 := by
  decide

/-- Claim C8 counterexample: a request with an empty `passengers` list is
not rejected: the call returns a confirmed `ok` outcome and a booking with
zero passengers (and `total_amount = 0`) is created, instead of failing
with a validation error and creating nothing. -/
theorem empty_passengers_accepted :
    (create_booking dbEx reqEmpty).1 = .ok 0 "confirmed" ∧
    ((create_booking dbEx reqEmpty).2.1).bookings =
      [{ flight_id := 1, contact_email := "contact@example.com",
         passengers := [], total_amount := 0, status := "confirmed" }] := by
  constructor
  · rfl
  · simp [create_booking, dbEx, raceFlight, reqEmpty, DB.findFlight, lookupFlight]

/-- One `create_booking` call never changes a flight's seat ledger: the
decrement it applies equals the passenger count of the booking it stores. -/
theorem seatLedger_create_booking (db : DB) (req : BookingRequest) (fid : Nat) :
    seatLedger ((create_booking db req).2.1) fid = seatLedger db fid := by
  unfold create_booking
  cases h : db.findFlight req.flight_id with
  | none => simp [h]
  | some f =>
    by_cases hs : f.seats_available < (req.passengers.length : Int)
    · simp [h, hs]
    · simp only [h, if_neg hs]
      by_cases hfid : fid = req.flight_id
      · subst hfid
        unfold seatLedger DB.findFlight at *
        simp only [lookupFlight_incSeats_self]
        rw [show (lookupFlight db.flights req.flight_id) = some f from h]
        simp [bookedSeats_append]
        ring
      · unfold seatLedger DB.findFlight at *
        rw [lookupFlight_incSeats_ne _ _ _ _ hfid]
        have hne : (req.flight_id == fid) = false := by
          simp
          omega
        simp [bookedSeats_append, hne]

/-- Sequential special case of ledger conservation: a back-to-back sequence
of `create_booking` calls preserves a flight's seat ledger. -/
theorem seatLedger_invariant (db : DB) (reqs : List BookingRequest) (fid : Nat) :
    seatLedger (applyReqs db reqs) fid = seatLedger db fid := by
  induction reqs generalizing db with
  | nil => rfl
  | cons r rs ih =>
    show seatLedger (applyReqs ((create_booking db r).2.1) rs) fid = _
    rw [ih, seatLedger_create_booking]

/-- One atomic step of one request shifts a flight's seat ledger by exactly
the change in that request's pending seats: the insert step raises booked
seats and pending together, the decrement step lowers the counter and the
pending together, and every other step touches neither. -/
theorem stepThread_ledger_shift (db : DB) (t : Thread) (fid : Nat) :
    seatLedger (stepThread db t).1 fid =
      (seatLedger db fid).map
        (fun v => v + ((stepThread db t).2.pendingFor fid - t.pendingFor fid)) := by
  obtain ⟨req, pc⟩ := t
  cases pc with
  | ready =>
    simp only [stepThread, Thread.pendingFor]
    cases h : seatLedger db fid <;> simp [h]
  | readDone found =>
    cases found with
    | none =>
      simp only [stepThread, Thread.pendingFor]
      cases h : seatLedger db fid <;> simp [h]
    | some f =>
      simp only [stepThread]
      by_cases hs : f.seats_available < (req.passengers.length : Int)
      · rw [if_pos hs]
        simp only [Thread.pendingFor]
        cases h : seatLedger db fid <;> simp [h]
      · rw [if_neg hs]
        simp only [Thread.pendingFor]
        unfold seatLedger DB.findFlight
        cases hl : lookupFlight db.flights fid with
        | none => simp
        | some g =>
          simp only [Option.map_some, Option.some.injEq, bookedSeats_append]
          by_cases hfid : req.flight_id = fid
          · simp [hfid]
            ring
          · have hne : (req.flight_id == fid) = false := by
              simp [hfid]
            simp [hne]
  | inserted bid =>
    simp only [stepThread, Thread.pendingFor]
    unfold seatLedger DB.findFlight
    by_cases hfid : fid = req.flight_id
    · subst hfid
      rw [lookupFlight_incSeats_self]
      cases hl : lookupFlight db.flights req.flight_id with
      | none => simp
      | some g =>
        simp
        ring
    · rw [lookupFlight_incSeats_ne _ _ _ _ hfid]
      have hne : (req.flight_id == fid) = false := by
        simp
        omega
      cases hl : lookupFlight db.flights fid with
      | none => simp
      | some g => simp [hne]
  | finished out =>
    simp only [stepThread, Thread.pendingFor]
    cases h : seatLedger db fid <;> simp [h]

/-- Replacing the thread at a valid index changes the total pending seats
by the difference between the new and the old thread's pending seats. -/
theorem pendingSeats_set (ts : List Thread) (i : Nat) (t t' : Thread)
    (h : ts[i]? = some t) (fid : Nat) :
    pendingSeats (ts.set i t') fid =
      pendingSeats ts fid - t.pendingFor fid + t'.pendingFor fid := by
  induction ts generalizing i with
  | nil => simp at h
  | cons hd tl ih =>
    cases i with
    | zero =>
      have hhd : hd = t := by simpa using h
      subst hhd
      simp [pendingSeats]
      ring
    | succ j =>
      have hj : tl[j]? = some t := by simpa using h
      have hrec := ih j hj
      simp only [List.set, pendingSeats, List.map_cons, List.sum_cons] at hrec ⊢
      rw [hrec]
      ring

/-- The pending-adjusted seat ledger of every flight is invariant under
every interleaving of the in-flight requests. -/
theorem adjustedLedger_runSched (sched : List Nat) (s : Sys) (fid : Nat) :
    adjustedLedger (runSched sched s) fid = adjustedLedger s fid := by
  induction sched generalizing s with
  | nil => rfl
  | cons i rest ih =>
    cases h : s.threads[i]? with
    | none =>
      rw [show runSched (i :: rest) s = runSched rest s by simp [runSched, h]]
      exact ih s
    | some t =>
      rw [show runSched (i :: rest) s =
          runSched rest
            { db := (stepThread s.db t).1,
              threads := s.threads.set i (stepThread s.db t).2 } by
        simp [runSched, h]]
      rw [ih]
      unfold adjustedLedger
      rw [stepThread_ledger_shift, pendingSeats_set s.threads i t _ h,
        Option.map_map]
      cases hl : seatLedger s.db fid with
      | none => simp
      | some v =>
        simp only [Option.map_some', Function.comp, Option.some.injEq]
        ring

/-- Threads that have not yet inserted their booking, and threads that have
finished, hold no pending seats. -/
theorem pendingSeats_startSys (db : DB) (reqs : List BookingRequest) (fid : Nat) :
    pendingSeats (startSys db reqs).threads fid = 0 := by
  unfold startSys pendingSeats
  rw [List.map_map]
  apply List.sum_eq_zero
  intro x hx
  simp only [List.mem_map] at hx
  obtain ⟨r, hr, hxr⟩ := hx
  rw [← hxr]
  rfl

theorem pendingSeats_eq_zero_of_finished (ts : List Thread) (fid : Nat)
    (h : ts.all (fun t => t.pc.isFinished) = true) :
    pendingSeats ts fid = 0 := by
  induction ts with
  | nil => rfl
  | cons hd tl ih =>
    rw [List.all_cons, Bool.and_eq_true] at h
    have hhd : hd.pendingFor fid = 0 := by
      unfold Thread.pendingFor
      cases hpc : hd.pc <;> simp_all [ThreadPC.isFinished, hpc]
    simp only [pendingSeats, List.map_cons, List.sum_cons] at ih ⊢
    rw [hhd, ih h.2]
    ring

/-- Claim C4 (amended): under **any interleaving** of any set of concurrent
`create_booking` requests, once every request has completed, each flight's
`seats_available` plus the passengers of the non-cancelled bookings
referencing it equals its value in the initial state — the seat ledger is
conserved by every completed interleaving (transiently, a request that has
inserted its booking but not yet decremented raises it by its pending
seats).  It equals `seats_total` only when the initial state already
satisfies conservation, which seeding does not provide: a flight seeded for
day `d` starts with `seats_available = 120 - 3 d` and no bookings. -/
theorem seatLedger_conserved_any_interleaving (sched : List Nat) (db : DB)
    (reqs : List BookingRequest) (fid : Nat)
    (hdone : (runSched sched (startSys db reqs)).threads.all
        (fun t => t.pc.isFinished) = true) :
    seatLedger (runSched sched (startSys db reqs)).db fid = seatLedger db fid := by
  have h := adjustedLedger_runSched sched (startSys db reqs) fid
  unfold adjustedLedger at h
  rw [pendingSeats_eq_zero_of_finished _ _ hdone,
    pendingSeats_startSys db reqs fid] at h
  simpa using h

/-- Concrete instance of the amended claim C4: the oversold race run
completes with both threads finished and conserves the ledger of flight 1:
`seats_available` ends at `-2` with `4` booked seats, and `-2 + 4 = 2` is
exactly the initial ledger value `2 + 0`. -/
theorem seatLedger_conserved_any_interleaving_witness :
    (runSched raceSched (startSys sysRace.db [raceReq, raceReq])).threads.all
        (fun t => t.pc.isFinished) = true ∧
    seatLedger (runSched raceSched (startSys sysRace.db [raceReq, raceReq])).db 1 =
      seatLedger sysRace.db 1 :=
  ⟨by decide,
    seatLedger_conserved_any_interleaving raceSched sysRace.db [raceReq, raceReq] 1
      (by decide)⟩

/-- Claim C3 (amended): every `create_booking` call either issues exactly
one booking insert together with exactly one seat decrement — with the
booking insert coming **first** and the unconditional decrement after it —
and reports success, or issues no write at all, leaves the store untouched
and reports `notFound` or `insufficientCapacity`; never one write without
the other. -/
theorem create_booking_write_pairing (db : DB) (req : BookingRequest) :
    (∃ b : Booking,
        (create_booking db req).2.2 =
          [.findOneFlight req.flight_id, .insertBooking b,
           .incSeatsOp req.flight_id (-(req.passengers.length : Int))] ∧
        (create_booking db req).1 = .ok db.bookings.length "confirmed") ∨
    ((create_booking db req).2.2 = [.findOneFlight req.flight_id] ∧
     (create_booking db req).2.1 = db ∧
     ((create_booking db req).1 = .notFound ∨
      (create_booking db req).1 = .insufficientCapacity)) := by
  unfold create_booking
  cases h : db.findFlight req.flight_id with
  | none => right; simp [h]
  | some f =>
    by_cases hs : f.seats_available < (req.passengers.length : Int)
    · right; simp [h, hs]
    · left
      refine ⟨{ flight_id := req.flight_id, contact_email := req.contact_email,
                passengers := req.passengers.map passengerOfIn,
                total_amount := f.price * ((req.passengers.map passengerOfIn).length : Rat),
                status := "confirmed" }, ?_, ?_⟩ <;> simp [h, hs]

/-- Claim C6: when the flight exists but has fewer available seats than the
requested passenger count, `create_booking` reports `insufficientCapacity`,
leaves the store exactly as it was, and issues no write (its only store
operation is the `find_one` read). -/
theorem insufficient_capacity_no_side_effects (db : DB) (req : BookingRequest)
    (f : Flight) (hf : db.findFlight req.flight_id = some f)
    (hlt : f.seats_available < (req.passengers.length : Int)) :
    create_booking db req =
      (.insufficientCapacity, db, [.findOneFlight req.flight_id]) := by
  unfold create_booking
  rw [hf]
  simp [hlt]

/-- Concrete instance of claim C6: one remaining seat, two passengers
requested; the call fails with `insufficientCapacity` and changes nothing. -/
theorem insufficient_capacity_no_side_effects_witness :
    dbOne.findFlight 1 = some { raceFlight with seats_available := 1 } ∧
    ({ raceFlight with seats_available := 1 } : Flight).seats_available <
      ((raceReq.passengers.length : Int)) ∧
    create_booking dbOne raceReq =
      (.insufficientCapacity, dbOne, [.findOneFlight 1]) :=
  ⟨by decide, by decide,
    insufficient_capacity_no_side_effects dbOne raceReq
      { raceFlight with seats_available := 1 } (by decide) (by decide)⟩

/-- A `create_booking` call only ever appends to the booking collection. -/
theorem create_booking_bookings_extend (db : DB) (req : BookingRequest) :
    ∃ ext, ((create_booking db req).2.1).bookings = db.bookings ++ ext := by
  unfold create_booking
  cases h : db.findFlight req.flight_id with
  | none => exact ⟨[], by simp [h]⟩
  | some f =>
    by_cases hs : f.seats_available < (req.passengers.length : Int)
    · exact ⟨[], by simp [h, hs]⟩
    · exact ⟨[{ flight_id := req.flight_id, contact_email := req.contact_email,
                passengers := req.passengers.map passengerOfIn,
                total_amount := f.price * ((req.passengers.map passengerOfIn).length : Rat),
                status := "confirmed" }], by simp [h, hs]⟩

/-- A sequence of `create_booking` calls only ever appends to the booking
collection; bookings already stored are never rewritten. -/
theorem applyReqs_bookings_extend (reqs : List BookingRequest) (db : DB) :
    ∃ ext, (applyReqs db reqs).bookings = db.bookings ++ ext := by
  induction reqs generalizing db with
  | nil => exact ⟨[], by simp [applyReqs]⟩
  | cons r rs ih =>
    obtain ⟨e1, he1⟩ := create_booking_bookings_extend db r
    obtain ⟨e2, he2⟩ := ih ((create_booking db r).2.1)
    refine ⟨e1 ++ e2, ?_⟩
    show (applyReqs ((create_booking db r).2.1) rs).bookings = _
    rw [he2, he1, List.append_assoc]

/-- Claim C7: a successful `create_booking` on a flight whose stored record
is `f` appends one booking whose `total_amount` is `f.price` times the
passenger count — the price read at reservation time — with status
`"confirmed"`; and after any further sequence of calls that booking is
still stored unchanged at its position, so its amount is unaffected by
anything that later happens to the flight. -/
theorem booking_price_snapshot (db : DB) (req : BookingRequest) (f : Flight)
    (hf : db.findFlight req.flight_id = some f)
    (hge : ¬ f.seats_available < (req.passengers.length : Int))
    (reqs : List BookingRequest) :
    ∃ b : Booking,
      ((create_booking db req).2.1).bookings = db.bookings ++ [b] ∧
      b.total_amount = f.price * (req.passengers.length : Rat) ∧
      b.status = "confirmed" ∧
      (applyReqs ((create_booking db req).2.1) reqs).bookings[db.bookings.length]? =
        some b := by
  have hbk : ((create_booking db req).2.1).bookings =
      db.bookings ++
        [{ flight_id := req.flight_id, contact_email := req.contact_email,
           passengers := req.passengers.map passengerOfIn,
           total_amount := f.price * ((req.passengers.map passengerOfIn).length : Rat),
           status := "confirmed" }] := by
    unfold create_booking
    rw [hf]
    simp [hge]
  refine ⟨_, hbk, by simp, rfl, ?_⟩
  obtain ⟨ext, hext⟩ := applyReqs_bookings_extend reqs ((create_booking db req).2.1)
  rw [hext, hbk, List.append_assoc,
    List.getElem?_append_right (Nat.le_refl _)]
  simp

/-- Concrete instance of claim C7: price 70, three passengers; the stored
booking carries `total_amount = 70 * 3 = 210` and stays stored unchanged. -/
theorem booking_price_snapshot_witness :
    dbEx.findFlight 1 = some { raceFlight with seats_available := 5 } ∧
    ¬ ({ raceFlight with seats_available := 5 } : Flight).seats_available <
        ((reqThree.passengers.length : Int)) ∧
    (∃ b : Booking,
      ((create_booking dbEx reqThree).2.1).bookings = dbEx.bookings ++ [b] ∧
      b.total_amount =
        ({ raceFlight with seats_available := 5 } : Flight).price *
          ((reqThree.passengers.length : Rat)) ∧
      b.status = "confirmed" ∧
      (applyReqs ((create_booking dbEx reqThree).2.1) []).bookings[dbEx.bookings.length]? =
        some b) :=
  ⟨by decide, by decide,
    booking_price_snapshot dbEx reqThree { raceFlight with seats_available := 5 }
      (by decide) (by decide) []⟩

/-- Claim C8 (amended): a request whose `passengers` list is empty is not
rejected: provided the flight exists (with a non-negative seat counter, as
every stored flight has until a race drives it negative), the call
succeeds, stores a booking with zero passengers and `total_amount = 0`,
and leaves the flight record unchanged (the decrement is by zero). -/
theorem create_booking_empty_passengers (db : DB) (req : BookingRequest) (f : Flight)
    (hf : db.findFlight req.flight_id = some f)
    (hempty : req.passengers = [])
    (hnn : 0 ≤ f.seats_available) :
    (create_booking db req).1 = .ok db.bookings.length "confirmed" ∧
    ((create_booking db req).2.1).bookings =
      db.bookings ++
        [{ flight_id := req.flight_id, contact_email := req.contact_email,
           passengers := [], total_amount := 0, status := "confirmed" }] ∧
    ((create_booking db req).2.1).findFlight req.flight_id = some f := by
  have hlen : (req.passengers.length : Int) = 0 := by simp [hempty]
  have hs : ¬ f.seats_available < (req.passengers.length : Int) := by
    rw [hlen]
    omega
  refine ⟨?_, ?_, ?_⟩
  · unfold create_booking
    rw [hf]
    simp [hs]
  · unfold create_booking
    rw [hf]
    have hs' : ¬ f.seats_available < (0 : Int) := by omega
    simp [hs, hempty, hs']
  · unfold create_booking
    rw [hf]
    simp only [if_neg hs]
    unfold DB.findFlight
    show lookupFlight (incSeats db.flights req.flight_id _) req.flight_id = some f
    rw [lookupFlight_incSeats_self,
      show lookupFlight db.flights req.flight_id = some f from hf]
    simp [hempty]

/-- Concrete instance of the amended claim C8: the empty-passenger request
against the five-seat flight succeeds, stores a zero-passenger booking and
leaves the flight untouched. -/
theorem create_booking_empty_passengers_witness :
    dbEx.findFlight 1 = some { raceFlight with seats_available := 5 } ∧
    reqEmpty.passengers = [] ∧
    (0 : Int) ≤ ({ raceFlight with seats_available := 5 } : Flight).seats_available ∧
    ((create_booking dbEx reqEmpty).1 = .ok 0 "confirmed" ∧
     ((create_booking dbEx reqEmpty).2.1).bookings =
       dbEx.bookings ++
         [{ flight_id := 1, contact_email := "contact@example.com",
            passengers := [], total_amount := 0, status := "confirmed" }] ∧
     ((create_booking dbEx reqEmpty).2.1).findFlight 1 =
       some { raceFlight with seats_available := 5 }) := by
  refine ⟨?_, ?_, ?_, ?_⟩
  · decide
  · rfl
  · decide
  · exact create_booking_empty_passengers dbEx reqEmpty
      { raceFlight with seats_available := 5 } (by decide) rfl (by decide)

/-- Claim C9: the flight-search result consists of exactly the stored
flights (with multiplicity) whose origin and destination equal the
uppercased query codes, whose departure time lies in the queried calendar
day, and which still have a seat available; and the result list is ordered
ascending by departure time. -/
theorem search_flights_spec (db : DB) (q : SearchQuery) :
    (search_flights db q).Perm
      ((db.flights.map Prod.snd).filter (flightMatches q)) ∧
    (∀ f : Flight,
      f ∈ search_flights db q ↔
        f ∈ db.flights.map Prod.snd ∧ flightMatches q f = true) ∧
    (search_flights db q).Pairwise
      (fun a b => a.departure_time ≤ b.departure_time) := by
  refine ⟨List.mergeSort_perm _ _, ?_, ?_⟩
  · intro f
    rw [search_flights, List.mem_mergeSort, List.mem_filter]
  · have h :=
      @List.sorted_mergeSort Flight
        (fun a b => decide (a.departure_time ≤ b.departure_time))
        (fun a b c hab hbc => by
          simp only [decide_eq_true_eq] at *
          omega)
        (fun a b => by
          simp only [Bool.or_eq_true, decide_eq_true_eq]
          omega)
        ((db.flights.map Prod.snd).filter (flightMatches q))
    exact h.imp (fun hab => by simpa using hab)

/-- Uppercasing a character twice is the same as uppercasing it once. -/
theorem charToUpper_idem (c : Char) : c.toUpper.toUpper = c.toUpper := by
  by_cases h : 97 ≤ c.toNat ∧ c.toNat ≤ 122
  · have h1 : c.toUpper = Char.ofNat (c.toNat - 32) := by
      unfold Char.toUpper
      exact if_pos h
    rw [h1]
    obtain ⟨ha, hb⟩ := h
    generalize c.toNat = k at ha hb
    interval_cases k <;> decide
  · have h1 : c.toUpper = c := by
      unfold Char.toUpper
      exact if_neg h
    rw [h1, h1]

/-- Python's `.upper()` is idempotent. -/
theorem pyUpper_idem (s : String) : pyUpper (pyUpper s) = pyUpper s := by
  show String.mk ((s.data.map Char.toUpper).map Char.toUpper) =
    String.mk (s.data.map Char.toUpper)
  rw [List.map_map]
  congr 1
  exact List.map_congr_left (fun c _ => charToUpper_idem c)

/-- Claim C10: flight search uppercases the query's origin and destination
codes before matching, so searching with the already-uppercased codes
returns exactly the same result list as the original (lower- or
mixed-case) query. -/
theorem search_flights_case_insensitive (db : DB) (q : SearchQuery) :
    search_flights db
      { origin := pyUpper q.origin, destination := pyUpper q.destination,
        date := q.date } =
    search_flights db q := by
  unfold search_flights flightMatches
  simp only [pyUpper_idem]

end FlightBooking
